import Mathlib

/-!
# Verification of the GPortal metadata service adapter

Shallow embedding of `cloudbaseinit/metadata/services/gportal.py`
(class `GPortalService`).

Modelling conventions:
* The parsed JSON metadata document becomes the structure `MetaData`.
  A Python `dict` is modelled as an ordered association list
  (`List (String × _)`), matching Python's insertion-ordered iteration;
  keys of a dict are distinct by construction in Python, and the code
  only iterates keys or looks up the key currently being iterated, so
  direct pair iteration is faithful.
* Python `None`-or-falsy JSON sections become `Option`: the code tests
  truthiness (`if not interfaces_config`, `if not dns_config`,
  `if not subnet`), under which an absent section and an empty dict
  behave identically, so both map to `none`.
* A Python exception escaping a parse function is the `none` value of an
  `Option` result; a normal return `r` is `some r`.
* Machine side effects of `get_admin_password` (HTTP attempts and
  `time.sleep` calls) are counted explicitly so that the retry policy is
  observable.
-/

/-- `ipv4` / `ipv6` subnet descriptor of an interface descriptor:
`address`, `netmask`, `gateway` string fields, each possibly absent. -/
structure SubnetDesc where
  address : Option String
  netmask : Option String
  gateway : Option String
deriving Repr, DecidableEq

/-- One interface descriptor from the document's `interfaces` mapping:
`mac` (possibly absent, making `nic.get("mac").upper()` raise),
`mtu` (absent means the code's default 1500 applies), and the two
optional subnet descriptors. -/
structure NicDesc where
  mac : Option String
  mtu : Option Int
  ipv4 : Option SubnetDesc
  ipv6 : Option SubnetDesc
deriving Repr, DecidableEq

/-- Document-level route descriptor: `{destination, gateway}`. -/
structure RouteDesc where
  destination : Option String
  gateway : Option String
deriving Repr, DecidableEq

/-- Truthy (non-empty) `dns` section; `nameservers` may still be absent,
in which case `dns_config.get("nameservers", [])` yields `[]`. -/
structure DnsSection where
  nameservers : Option (List String)
deriving Repr, DecidableEq

/-- The parsed metadata document, with exactly the fields the service
reads.  `interfaces = []` models an absent or empty `interfaces`
section (both falsy in Python); `routes = []` models an absent
`routes` key (the code uses `.get("routes", [])`). -/
structure MetaData where
  id : Option String
  fqdn : Option String
  user_data : Option String
  public_keys : List String
  interfaces : List (String × List NicDesc)
  dns : Option DnsSection
  routes : List RouteDesc
deriving Repr, DecidableEq

/-- Modelled from the spec: the abstract network model's physical link
type constant (`network_model.LINK_TYPE_PHYSICAL`), an opaque string
tag; its exact text is irrelevant to every claim. -/
def LINK_TYPE_PHYSICAL : String := "physical"

/-- `network_model.Link` as constructed by this service (bond and vlan
fields are always `None` in the source). -/
structure Link where
  id : String
  name : String
  type : String
  enabled : Bool
  mac_address : String
  mtu : Int
  bond : Option String
  vlan_link : Option String
  vlan_id : Option Int
deriving Repr, DecidableEq

/-- `network_model.Route`: both fields come from `.get(...)` calls and
may be Python `None`. -/
structure Route where
  network_cidr : Option String
  gateway : Option String
deriving Repr, DecidableEq

/-- `network_model.Network` as constructed by this service. -/
structure Network where
  link : String
  address_cidr : String
  routes : List Route
  dns_nameservers : List String
deriving Repr, DecidableEq

/-- `network_model.NameServerService`. -/
structure NameServerService where
  addresses : List String
  search : Option String
deriving Repr, DecidableEq

/-- `network_model.NetworkDetailsV2`. -/
structure NetworkDetailsV2 where
  links : List Link
  networks : List Network
  services : List NameServerService
deriving Repr, DecidableEq

/-- Python `str.strip()`: remove leading and trailing whitespace
characters (the password bodies at issue contain only ASCII
whitespace, for which `Char.isWhitespace` agrees with Python). -/
def pyStrip (s : String) : String :=
  String.mk
    (((s.data.dropWhile Char.isWhitespace).reverse.dropWhile Char.isWhitespace).reverse)

/-- Python `str.upper()`; the values it is applied to are MAC address
strings (ASCII hex digits and colons), for which per-character ASCII
uppercasing agrees with Python. -/
def pyUpper (s : String) : String := String.mk (s.data.map Char.toUpper)

/-- The UTF-8 byte sequence of one Unicode code point. -/
def utf8Bytes (c : Nat) : List Nat :=
  if c < 128 then [c]
  else if c < 2048 then [192 + c / 64, 128 + c % 64]
  else if c < 65536 then [224 + c / 4096, 128 + (c / 64) % 64, 128 + c % 64]
  else [240 + c / 262144, 128 + (c / 4096) % 64, 128 + (c / 64) % 64, 128 + c % 64]

/-- Python `str.encode()`: the UTF-8 encoding of the string, as a byte
list. -/
def pyEncode (s : String) : List Nat := s.data.flatMap (fun c => utf8Bytes c.toNat)

/-- Number of set bits of one octet value. -/
def bitsOfOctet (n : Nat) : Nat :=
  (List.range 8).countP (fun i => n.testBit i)

/-- Decimal value of one octet's digit characters. -/
def octetVal (l : List Char) : Nat :=
  l.foldl (fun acc c => acc * 10 + (c.toNat - 48)) 0

/-- Prefix length of a dotted-quad netmask string: total number of set
bits over its dot-separated octets. -/
def netmaskPrefixLen (netmask : String) : Nat :=
  (((List.splitOn '.' netmask.data).map (fun o => bitsOfOctet (octetVal o))).sum)

/-- Modelled from the spec: `network_utils.ip_netmask_to_cidr` (the
repository helper is not under `src/`): "CIDR: address/prefix-length
notation derived from an address+netmask pair", e.g. address
`176.57.186.5` with netmask `255.255.255.0` yields `176.57.186.5/24`.
No claim inspects this value beyond it being the network's address. -/
def ip_netmask_to_cidr (address : Option String) (netmask : Option String) : String :=
  match netmask with
  | none => address.getD ""
  | some m => (address.getD "") ++ "/" ++ toString (netmaskPrefixLen m)

/-- One iteration of the `_net_parse_links` loop body for the class
named `t` at 1-based counter `i`: `nic = interfaces_config[t][0]`
(raises on an empty list, hence `none`), then
`mac_address=nic.get("mac").upper()` (raises when `mac` is absent),
`mtu=nic.get("mtu", 1500)`. -/
def linkOfNic (i : Nat) (t : String) (nics : List NicDesc) : Option Link :=
  match nics with
  | [] => none
  | nic :: _ =>
    match nic.mac with
    | none => none
    | some m =>
      some { id := "interface" ++ toString i
             name := "Network " ++ t
             type := LINK_TYPE_PHYSICAL
             enabled := true
             mac_address := pyUpper m
             mtu := nic.mtu.getD 1500
             bond := none
             vlan_link := none
             vlan_id := none }

/-- The `for t in interfaces_config` loop of `_net_parse_links`, with
the 1-based counter `i` threaded through; a raise in any iteration
aborts the whole call. -/
def linksGo : Nat → List (String × List NicDesc) → Option (List Link)
  | _, [] => some []
  | i, (t, nics) :: rest =>
    match linkOfNic i t nics with
    | none => none
    | some l =>
      match linksGo (i + 1) rest with
      | none => none
      | some ls => some (l :: ls)

/-- `GPortalService._net_parse_links`. -/
def net_parse_links (md : MetaData) : Option (List Link) :=
  if md.interfaces.isEmpty then some [] else linksGo 1 md.interfaces

/-- `network_model.Route(network_cidr=r.get('destination'), gateway=r.get('gateway'))`. -/
def routeOfDesc (r : RouteDesc) : Route :=
  { network_cidr := r.destination, gateway := r.gateway }

/-- The body of the `for ip_version in ['ipv4', 'ipv6']` loop of
`_net_parse_subnets` for one interface class `t` and one family `fam`:
skip when the subnet block is absent (falsy); otherwise emit one
`Network` whose routes start with the implicit default route iff
`t == "public"` (cidr `0.0.0.0/0` for ipv4, `::/0` otherwise, gateway
from this subnet) followed by one route per document-level route entry,
and whose nameservers are the dns nameservers iff `t == "public"`. -/
def famNetworks (dnsNs : List String) (docRoutes : List RouteDesc)
    (t : String) (fam : String) (sub : Option SubnetDesc) : List Network :=
  match sub with
  | none => []
  | some s =>
    [{ link := "Network " ++ t
       address_cidr := ip_netmask_to_cidr s.address s.netmask
       routes :=
         (if t = "public" then
           [{ network_cidr := some (if fam = "ipv4" then "0.0.0.0/0" else "::/0")
              gateway := s.gateway }]
          else []) ++ docRoutes.map routeOfDesc
       dns_nameservers := if t = "public" then dnsNs else [] }]

/-- The `for nic_type in interfaces_config` loop of
`_net_parse_subnets`: `nic = interfaces_config[nic_type][0]` raises on
an empty descriptor list; each class contributes its ipv4 network(s)
then its ipv6 network(s), in document order of classes. -/
def subnetsGo (dnsNs : List String) (docRoutes : List RouteDesc) :
    List (String × List NicDesc) → Option (List Network)
  | [] => some []
  | (t, nics) :: rest =>
    match nics with
    | [] => none
    | nic :: _ =>
      match subnetsGo dnsNs docRoutes rest with
      | none => none
      | some ns =>
        some (famNetworks dnsNs docRoutes t "ipv4" nic.ipv4 ++
              (famNetworks dnsNs docRoutes t "ipv6" nic.ipv6 ++ ns))

/-- `GPortalService._net_parse_subnets`: returns `[]` when
`interfaces` is absent/empty, then `[]` when `dns` is absent/empty;
otherwise runs the class loop with
`dns_config.get("nameservers", [])` and `.get("routes", [])`. -/
def net_parse_subnets (md : MetaData) : Option (List Network) :=
  if md.interfaces.isEmpty then some []
  else
    match md.dns with
    | none => some []
    | some d => subnetsGo (d.nameservers.getD []) md.routes md.interfaces

/-- `GPortalService._net_parse_services`. -/
def net_parse_services (md : MetaData) : List NameServerService :=
  match md.dns with
  | none => []
  | some d => [{ addresses := d.nameservers.getD [], search := none }]

/-- `GPortalService.get_network_details_v2`: outer `Option` is raise
(`none`) vs normal return, inner `Option` is the Python `None` result
vs a model. -/
def get_network_details_v2 (md : MetaData) : Option (Option NetworkDetailsV2) :=
  if md.interfaces.isEmpty then some none
  else
    match net_parse_links md with
    | none => none
    | some links =>
      if links.isEmpty then some none
      else
        match net_parse_subnets md with
        | none => none
        | some nets =>
          some (some { links := links, networks := nets, services := net_parse_services md })

/-- `GPortalService.get_user_data`: `data = meta.get("user_data")`;
`if data:` (empty string is falsy) `return data.encode()` (UTF-8),
else falls through returning `None`. -/
def get_user_data (md : MetaData) : Option (List Nat) :=
  match md.user_data with
  | none => none
  | some s => if s = "" then none else some (pyEncode s)

/-- `GPortalService.get_instance_id`. -/
def get_instance_id (md : MetaData) : Option String := md.id

/-- `GPortalService.get_host_name`. -/
def get_host_name (md : MetaData) : Option String := md.fqdn

/-- `GPortalService.get_public_keys`. -/
def get_public_keys (md : MetaData) : List String := md.public_keys

/-- `GPortalService.can_post_password`: constant `False`. -/
def can_post_password : Bool := false

/-- Outcome of one password fetch attempt
(`self._get_data(metadata_url)` then decode and `.strip()`):
a body string, a `RequestException` with or without an attached
response object, or any other exception. -/
inductive FetchResult where
  | ok (body : String)
  | reqError (hasResponse : Bool)
  | otherError
deriving Repr, DecidableEq

/-- How `get_admin_password` ends: a normal return of the `password`
variable (`none` is Python `None`), or an exception escaping the
method. -/
inductive PwOutcome where
  | returned (password : Option String)
  | raised
deriving Repr, DecidableEq

/-- The `for _ in range(CONF.retry_count)` loop of
`get_admin_password`.  Arguments after the transport: remaining
iterations, the current `password` variable, the attempt index fed to
the transport, the number of fetch attempts so far, the number of
`time.sleep` calls so far.  Semantics of one iteration:

* body fetched and stripped: on a non-blank result, `break` and return
  it; on a blank one, `continue` (no sleep);
* `RequestException` with a response: the handler logs
  `ex.response.status_code` and sleeps, then falls through to the
  `if not password` test on the unchanged `password`;
* `RequestException` without a response: `ex.response` is `None`, so
  the handler's `ex.response.status_code` raises `AttributeError`,
  which escapes the method before the sleep;
* any other exception: sleep, `continue`. -/
def pwLoop (transport : Nat → FetchResult) :
    Nat → Option String → Nat → Nat → Nat → PwOutcome × Nat × Nat
  | 0, password, _, attempts, sleeps => (PwOutcome.returned password, attempts, sleeps)
  | fuel + 1, password, i, attempts, sleeps =>
    match transport i with
    | FetchResult.ok body =>
      if pyStrip body = "" then
        pwLoop transport fuel (some (pyStrip body)) (i + 1) (attempts + 1) sleeps
      else (PwOutcome.returned (some (pyStrip body)), attempts + 1, sleeps)
    | FetchResult.reqError hasResponse =>
      if hasResponse then
        if password.getD "" = "" then
          pwLoop transport fuel password (i + 1) (attempts + 1) (sleeps + 1)
        else (PwOutcome.returned password, attempts + 1, sleeps + 1)
      else (PwOutcome.raised, attempts + 1, sleeps)
    | FetchResult.otherError =>
      pwLoop transport fuel password (i + 1) (attempts + 1) (sleeps + 1)

/-- `GPortalService.get_admin_password`, parameterised by the transport
(the `i`-th attempt's outcome) and `CONF.retry_count`.  Returns the
outcome together with the number of fetch attempts and of sleep
calls. -/
def get_admin_password (transport : Nat → FetchResult) (retry_count : Nat) :
    PwOutcome × Nat × Nat :=
  pwLoop transport retry_count none 0 0 0

/-- Outcome of `self._get_meta_data()` as observed by `load`: either
some exception is raised during fetch or JSON decode, or a value is
returned (`none` being Python `None`, which `_get_meta_data` yields
when the fetched body is falsy). -/
inductive MetaFetchResult where
  | raises
  | value (doc : Option MetaData)
deriving Repr, DecidableEq

/-- `GPortalService.load`, parameterised by whether
`CONF.gportal.metadata_base_url` is configured (truthy) and by the
outcome of the metadata fetch.  Returns the boolean result and the
number of fetch attempts performed.  Totality of this function is the
embedding of "load never raises": both fetch outcomes, including
`raises`, map to a boolean return. -/
def load (configured : Bool) (r : MetaFetchResult) : Bool × Nat :=
  if configured then
    match r with
    | MetaFetchResult.raises => (false, 1)
    | MetaFetchResult.value _ => (true, 1)
  else (false, 0)

/-! ## Helper lemmas -/

/-- Inversion of `linkOfNic`: a successful iteration exposes the first
descriptor, its mac, and the exact link built. -/
theorem linkOfNic_eq_some {i : Nat} {t : String} {nics : List NicDesc} {l : Link}
    (h : linkOfNic i t nics = some l) :
    ∃ nic rest m, nics = nic :: rest ∧ nic.mac = some m ∧
      l = { id := "interface" ++ toString i
            name := "Network " ++ t
            type := LINK_TYPE_PHYSICAL
            enabled := true
            mac_address := pyUpper m
            mtu := nic.mtu.getD 1500
            bond := none
            vlan_link := none
            vlan_id := none } := by
  match nics with
  | [] => simp [linkOfNic] at h
  | nic :: rest =>
    match hm : nic.mac with
    | none => simp [linkOfNic, hm] at h
    | some m =>
      refine ⟨nic, rest, m, rfl, hm, ?_⟩
      simp [linkOfNic, hm] at h
      exact h.symm

/-- Full characterisation of the `_net_parse_links` loop: one link per
interface entry, positionally, each produced by `linkOfNic` at counter
`i + k`. -/
theorem linksGo_spec :
    ∀ (ifaces : List (String × List NicDesc)) (i : Nat) (links : List Link),
      linksGo i ifaces = some links →
      links.length = ifaces.length ∧
      ∀ (k : Nat) (t : String) (nics : List NicDesc),
        ifaces.get? k = some (t, nics) →
        ∃ l, links.get? k = some l ∧ linkOfNic (i + k) t nics = some l := by
  intro ifaces
  induction ifaces with
  | nil =>
    intro i links h
    simp [linksGo] at h
    subst h
    exact ⟨rfl, by intro k t nics hk; simp at hk⟩
  | cons p rest ih =>
    intro i links h
    obtain ⟨t, nics⟩ := p
    match hl : linkOfNic i t nics, hr : linksGo (i + 1) rest with
    | none, _ => rw [linksGo, hl] at h; exact absurd h (by simp)
    | some l, none => rw [linksGo, hl, hr] at h; exact absurd h (by simp)
    | some l, some ls =>
      rw [linksGo, hl, hr] at h
      simp only [Option.some.injEq] at h
      subst h
      obtain ⟨hlen, hget⟩ := ih (i + 1) ls hr
      constructor
      · simpa using hlen
      · intro k t' nics' hk
        match k with
        | 0 =>
          simp at hk
          obtain ⟨ht, hn⟩ := hk
          subst ht; subst hn
          exact ⟨l, rfl, by simpa using hl⟩
        | k + 1 =>
          simp only [List.get?] at hk
          obtain ⟨l', hl', hOf⟩ := hget k t' nics' hk
          refine ⟨l', by simpa using hl', ?_⟩
          have : i + (k + 1) = i + 1 + k := by omega
          rw [this]
          exact hOf

/-- Every interface class reached by a successful `_net_parse_links`
run contributes a link named after it. -/
theorem linksGo_name_exists :
    ∀ (ifaces : List (String × List NicDesc)) (i : Nat) (links : List Link),
      linksGo i ifaces = some links →
      ∀ p ∈ ifaces, ∃ l ∈ links, l.name = "Network " ++ p.1 := by
  intro ifaces
  induction ifaces with
  | nil => intro i links _ p hp; simp at hp
  | cons q rest ih =>
    intro i links h p hp
    obtain ⟨t, nics⟩ := q
    match hl : linkOfNic i t nics, hr : linksGo (i + 1) rest with
    | none, _ => rw [linksGo, hl] at h; exact absurd h (by simp)
    | some l, none => rw [linksGo, hl, hr] at h; exact absurd h (by simp)
    | some l, some ls =>
      rw [linksGo, hl, hr] at h
      simp only [Option.some.injEq] at h
      subst h
      rcases List.mem_cons.mp hp with hp | hp
      · subst hp
        obtain ⟨nic, rest', m, _, _, hlink⟩ := linkOfNic_eq_some hl
        exact ⟨l, List.mem_cons_self l ls, by rw [hlink]⟩
      · obtain ⟨l', hl', hname⟩ := ih (i + 1) ls hr p hp
        exact ⟨l', List.mem_cons_of_mem l hl', hname⟩

/-- Inversion of the per-family subnet step: any emitted network comes
from a present subnet block and has exactly the described shape. -/
theorem famNetworks_mem {dnsNs : List String} {docRoutes : List RouteDesc}
    {t fam : String} {sub : Option SubnetDesc} {n : Network}
    (h : n ∈ famNetworks dnsNs docRoutes t fam sub) :
    ∃ s, sub = some s ∧
      n = { link := "Network " ++ t
            address_cidr := ip_netmask_to_cidr s.address s.netmask
            routes :=
              (if t = "public" then
                [{ network_cidr := some (if fam = "ipv4" then "0.0.0.0/0" else "::/0")
                   gateway := s.gateway }]
               else []) ++ docRoutes.map routeOfDesc
            dns_nameservers := if t = "public" then dnsNs else [] } := by
  match sub with
  | none => simp [famNetworks] at h
  | some s =>
    refine ⟨s, rfl, ?_⟩
    simp only [famNetworks, List.mem_singleton] at h
    exact h

/-- Any network emitted by a successful `_net_parse_subnets` loop run
comes from some interface entry of the document, with its first
descriptor exposed and its family subnet identified. -/
theorem subnetsGo_mem {dnsNs : List String} {docRoutes : List RouteDesc} :
    ∀ (ifaces : List (String × List NicDesc)) (nets : List Network),
      subnetsGo dnsNs docRoutes ifaces = some nets →
      ∀ n ∈ nets, ∃ t nics nic rest fam,
        (t, nics) ∈ ifaces ∧ nics = nic :: rest ∧
        (fam = "ipv4" ∨ fam = "ipv6") ∧
        n ∈ famNetworks dnsNs docRoutes t fam
          (if fam = "ipv4" then nic.ipv4 else nic.ipv6) := by
  intro ifaces
  induction ifaces with
  | nil => intro nets h n hn; simp [subnetsGo] at h; subst h; simp at hn
  | cons q rest ih =>
    intro nets h n hn
    obtain ⟨t, nics⟩ := q
    match hns : nics with
    | [] => rw [subnetsGo] at h; exact absurd h (by simp)
    | nic :: nicsRest =>
      match hr : subnetsGo dnsNs docRoutes rest with
      | none => rw [subnetsGo, hr] at h; exact absurd h (by simp)
      | some ns =>
        rw [subnetsGo, hr] at h
        simp only [Option.some.injEq] at h
        subst h
        rcases List.mem_append.mp hn with h4 | hn'
        · exact ⟨t, nic :: nicsRest, nic, nicsRest, "ipv4", List.mem_cons_self _ _, rfl,
            Or.inl rfl, by simpa using h4⟩
        · rcases List.mem_append.mp hn' with h6 | hrest
          · exact ⟨t, nic :: nicsRest, nic, nicsRest, "ipv6", List.mem_cons_self _ _, rfl,
              Or.inr rfl, by simpa using h6⟩
          · obtain ⟨t', nics', nic', rest', fam, hmem, hcons, hfam, hin⟩ := ih ns hr n hrest
            exact ⟨t', nics', nic', rest', fam, List.mem_cons_of_mem _ hmem, hcons, hfam, hin⟩

/-- When every interface class has a first descriptor with a mac, the
links loop succeeds. -/
theorem linksGo_total :
    ∀ (ifaces : List (String × List NicDesc)) (i : Nat),
      (∀ p ∈ ifaces, ∃ nic rest m, p.2 = nic :: rest ∧ nic.mac = some m) →
      ∃ links, linksGo i ifaces = some links := by
  intro ifaces
  induction ifaces with
  | nil => intro i _; exact ⟨[], rfl⟩
  | cons q rest ih =>
    intro i h
    obtain ⟨t, nics⟩ := q
    obtain ⟨nic, rest', m, hcons, hmac⟩ := h (t, nics) (List.mem_cons_self _ _)
    obtain ⟨ls, hls⟩ := ih (i + 1) (fun p hp => h p (List.mem_cons_of_mem _ hp))
    simp only at hcons
    subst hcons
    obtain ⟨l, hOf⟩ : ∃ l, linkOfNic i t (nic :: rest') = some l := by
      simp only [linkOfNic, hmac]
      exact ⟨_, rfl⟩
    refine ⟨l :: ls, ?_⟩
    rw [linksGo, hOf, hls]

/-- When every interface class has a non-empty descriptor list, the
subnets loop succeeds. -/
theorem subnetsGo_total (dnsNs : List String) (docRoutes : List RouteDesc) :
    ∀ (ifaces : List (String × List NicDesc)),
      (∀ p ∈ ifaces, p.2 ≠ []) →
      ∃ nets, subnetsGo dnsNs docRoutes ifaces = some nets := by
  intro ifaces
  induction ifaces with
  | nil => exact fun _ => ⟨[], rfl⟩
  | cons q rest ih =>
    intro h
    obtain ⟨t, nics⟩ := q
    have hne := h (t, nics) (List.mem_cons_self _ _)
    obtain ⟨ns, hns⟩ := ih (fun p hp => h p (List.mem_cons_of_mem _ hp))
    cases nics with
    | nil => simp at hne
    | cons nic nicsRest =>
      refine ⟨famNetworks dnsNs docRoutes t "ipv4" nic.ipv4 ++
        (famNetworks dnsNs docRoutes t "ipv6" nic.ipv6 ++ ns), ?_⟩
      rw [subnetsGo, hns]

/-- Running the password loop through `n` attempts that all return a
blank body consumes `n` units of fuel, performs `n` fetches and no
sleep, and leaves the `password` variable at `some ""` (unchanged when
`n = 0`). -/
theorem pwLoop_empty_run (transport : Nat → FetchResult) :
    ∀ (n fuel i attempts sleeps : Nat) (password : Option String),
      n ≤ fuel →
      (∀ j, j < n → ∃ e, transport (i + j) = FetchResult.ok e ∧ pyStrip e = "") →
      pwLoop transport fuel password i attempts sleeps =
        pwLoop transport (fuel - n) (if n = 0 then password else some "") (i + n)
          (attempts + n) sleeps := by
  intro n
  induction n with
  | zero => intro fuel i attempts sleeps password _ _; simp
  | succ n ih =>
    intro fuel i attempts sleeps password hle hem
    match fuel with
    | 0 => omega
    | f + 1 =>
      obtain ⟨e, he, hs⟩ := hem 0 (Nat.succ_pos n)
      rw [Nat.add_zero] at he
      simp only [pwLoop, he]
      rw [if_pos hs, hs]
      have step := ih f (i + 1) (attempts + 1) sleeps (some "") (by omega)
        (fun j hj => by
          obtain ⟨e', he', hs'⟩ := hem (j + 1) (by omega)
          exact ⟨e', by rw [show i + 1 + j = i + (j + 1) by omega]; exact he', hs'⟩)
      rw [step]
      have h1 : f + 1 - (n + 1) = f - n := by omega
      have h2 : i + 1 + n = i + (n + 1) := by omega
      have h3 : attempts + 1 + n = attempts + (n + 1) := by omega
      rw [h1, h2, h3]
      simp

/-! ## Concrete documents (mirroring the repository's own test fixture) -/

/-- The interface descriptor of the repository's test metadata. -/
def wNic : NicDesc :=
  { mac := some "40:9a:4c:8d:96:77"
    mtu := none
    ipv4 := some { address := some "176.57.186.5", netmask := some "255.255.255.0"
                   gateway := some "176.57.186.1" }
    ipv6 := none }

/-- The dns section of the repository's test metadata. -/
def wDns : DnsSection := { nameservers := some ["8.8.8.8", "1.1.1.1"] }

/-- The repository's test metadata document. -/
def wDoc : MetaData :=
  { id := some "3f657fa2-7b72-466e-bad4-f83a31fbe5cd"
    fqdn := some "server1"
    user_data := none
    public_keys := []
    interfaces := [("public", [wNic])]
    dns := some wDns
    routes := [{ destination := some "169.254.169.254/32", gateway := some "176.57.186.1" }] }

/-- The link the repository's test expects for `wDoc`. -/
def wLink : Link :=
  { id := "interface1", name := "Network public", type := LINK_TYPE_PHYSICAL
    enabled := true, mac_address := "40:9A:4C:8D:96:77", mtu := 1500
    bond := none, vlan_link := none, vlan_id := none }

/-- The network the repository's test expects for `wDoc`. -/
def wNet : Network :=
  { link := "Network public"
    address_cidr := "176.57.186.5/24"
    routes := [{ network_cidr := some "0.0.0.0/0", gateway := some "176.57.186.1" },
               { network_cidr := some "169.254.169.254/32", gateway := some "176.57.186.1" }]
    dns_nameservers := ["8.8.8.8", "1.1.1.1"] }

/-- A document with dns but no interfaces. -/
def noIfaceDoc : MetaData :=
  { id := none, fqdn := none, user_data := none, public_keys := []
    interfaces := [], dns := some wDns, routes := [] }

/-- A document with interfaces but no dns. -/
def noDnsDoc : MetaData :=
  { id := none, fqdn := none, user_data := none, public_keys := []
    interfaces := [("public", [wNic])], dns := none, routes := [] }

/-- A document whose only interface descriptor has no `mac` field. -/
def badMacDoc : MetaData :=
  { id := none, fqdn := none, user_data := none, public_keys := []
    interfaces := [("public", [{ mac := none, mtu := none, ipv4 := none, ipv6 := none }])]
    dns := some wDns, routes := [] }

/-- A document whose only interface class maps to an empty descriptor
list. -/
def emptyNicsDoc : MetaData :=
  { id := none, fqdn := none, user_data := none, public_keys := []
    interfaces := [("public", [])], dns := some wDns, routes := [] }

/-! ## Claims -/

/-- Claim C1: for every metadata document with non-empty `interfaces`
and a present `dns` section, each Network emitted by subnet parsing
comes from some interface class `t` and family subnet of its first
descriptor; when `t` is the literal string "public" its routes are the
implicit default route first (`0.0.0.0/0` for the ipv4 subnet, `::/0`
for the ipv6 one, gateway from that subnet's gateway field) followed by
one Route per document-level route entry in document order with
destination and gateway copied verbatim — regardless of the IP family
of those destinations — and its nameservers are `dns.nameservers`;
for any other class the routes are exactly the document-level routes
and the nameserver list is empty. -/
theorem gportal_c1_public_routes (md : MetaData) (d : DnsSection) (nets : List Network)
    (hdns : md.dns = some d) (hne : md.interfaces ≠ [])
    (h : net_parse_subnets md = some nets) :
    ∀ n ∈ nets, ∃ t nics nic rest sub fam,
      (t, nics) ∈ md.interfaces ∧ nics = nic :: rest ∧
      (fam = "ipv4" ∨ fam = "ipv6") ∧
      (if fam = "ipv4" then nic.ipv4 else nic.ipv6) = some sub ∧
      n.link = "Network " ++ t ∧
      (t = "public" →
        n.routes =
          { network_cidr := some (if fam = "ipv4" then "0.0.0.0/0" else "::/0")
            gateway := sub.gateway } :: md.routes.map routeOfDesc ∧
        n.dns_nameservers = d.nameservers.getD []) ∧
      (t ≠ "public" →
        n.routes = md.routes.map routeOfDesc ∧ n.dns_nameservers = []) := by
  intro n hn
  have hie : md.interfaces.isEmpty = false := by
    cases hI : md.interfaces with
    | nil => exact absurd hI hne
    | cons a l => simp
  simp only [net_parse_subnets, hie, hdns, Bool.false_eq_true, if_false] at h
  obtain ⟨t, nics, nic, rest, fam, hmem, hcons, hfam, hin⟩ :=
    subnetsGo_mem md.interfaces nets h n hn
  obtain ⟨s, hsub, hEq⟩ := famNetworks_mem hin
  refine ⟨t, nics, nic, rest, s, fam, hmem, hcons, hfam, hsub, ?_, ?_, ?_⟩
  · rw [hEq]
  · intro ht
    subst ht
    constructor
    · rw [hEq]
      simp
    · rw [hEq]
      simp
  · intro ht
    constructor
    · rw [hEq]
      simp [ht]
    · rw [hEq]
      simp [ht]

/-- Claim C2: for every document, link parsing returns one Link per
interface class entry in document order: position `k` (0-based) yields
id `interface(k+1)`, name `Network <class>`, the first descriptor's
mac uppercased, mtu defaulting to 1500, physical type, enabled. -/
theorem gportal_c2_parse_links (md : MetaData) (links : List Link)
    (h : net_parse_links md = some links) :
    links.length = md.interfaces.length ∧
    ∀ (k : Nat) (t : String) (nics : List NicDesc),
      md.interfaces.get? k = some (t, nics) →
      ∃ nic rest m, nics = nic :: rest ∧ nic.mac = some m ∧
        links.get? k = some
          { id := "interface" ++ toString (k + 1)
            name := "Network " ++ t
            type := LINK_TYPE_PHYSICAL
            enabled := true
            mac_address := pyUpper m
            mtu := nic.mtu.getD 1500
            bond := none
            vlan_link := none
            vlan_id := none } := by
  by_cases hie : md.interfaces.isEmpty = true
  · have hnil : md.interfaces = [] := by simpa using hie
    simp only [net_parse_links, hie, if_true] at h
    have hl : links = [] := by simpa using h.symm
    constructor
    · rw [hnil, hl]
      rfl
    · intro k t nics hk
      rw [hnil] at hk
      simp at hk
  · simp only [net_parse_links, hie, if_false] at h
    obtain ⟨hlen, hget⟩ := linksGo_spec md.interfaces 1 links h
    refine ⟨hlen, ?_⟩
    intro k t nics hk
    obtain ⟨l, hlk, hOf⟩ := hget k t nics hk
    obtain ⟨nic, rest, m, hcons, hmac, hl⟩ := linkOfNic_eq_some hOf
    refine ⟨nic, rest, m, hcons, hmac, ?_⟩
    rw [hlk, hl, Nat.add_comm 1 k]

/-- Claim C3: subnet parsing returns the empty list (without raising)
whenever the `dns` section is absent or empty, even with populated
interfaces, and symmetrically whenever `interfaces` is absent or
empty, even with a present dns section. -/
theorem gportal_c3_subnets_require_both (md : MetaData) :
    (md.dns = none → net_parse_subnets md = some []) ∧
    (md.interfaces = [] → net_parse_subnets md = some []) := by
  constructor
  · intro h
    by_cases hie : md.interfaces.isEmpty = true <;> simp [net_parse_subnets, hie, h]
  · intro h
    simp [net_parse_subnets, h]

/-- Claim C4: `get_network_details_v2` returns Python `None` when
`interfaces` is absent or empty and when link parsing yields zero
links; otherwise it returns the combined model built from the three
derivations (even when networks or services are empty). -/
theorem gportal_c4_network_details (md : MetaData) :
    (md.interfaces = [] → get_network_details_v2 md = some none) ∧
    (net_parse_links md = some [] → get_network_details_v2 md = some none) ∧
    (∀ links nets, net_parse_links md = some links → links ≠ [] →
      net_parse_subnets md = some nets →
      get_network_details_v2 md =
        some (some { links := links, networks := nets,
                     services := net_parse_services md })) := by
  refine ⟨?_, ?_, ?_⟩
  · intro h
    simp [get_network_details_v2, h]
  · intro h
    by_cases hie : md.interfaces.isEmpty = true
    · simp [get_network_details_v2, hie]
    · simp [get_network_details_v2, hie, h]
  · intro links nets hl hne hs
    have hie : md.interfaces.isEmpty = false := by
      cases hI : md.interfaces with
      | nil =>
        exfalso
        apply hne
        have h0 : net_parse_links md = some [] := by simp [net_parse_links, hI]
        rw [hl] at h0
        simpa using h0.symm
      | cons a l => simp
    have hlne : links.isEmpty = false := by
      cases hL : links with
      | nil => exact absurd hL hne
      | cons a l => simp
    simp [get_network_details_v2, hie, hl, hlne, hs]

/-- A transport whose first password body is blank and whose second is
a padded password. -/
def c5Transport (i : Nat) : FetchResult :=
  if i = 0 then FetchResult.ok "  " else FetchResult.ok " pw "

/-- Counterexample to claim C5 as stated: with retry count 2 and
`c5Transport` (blank body then non-blank body), the code performs
exactly 2 fetch attempts and returns the stripped second body, but
performs zero sleep calls rather than the one sleep that "a fixed
sleep interval between attempts" requires: the empty-body retry path
continues without sleeping. -/
theorem gportal_c5_sleep_counterexample :
    get_admin_password c5Transport 2 = (PwOutcome.returned (some "pw"), 2, 0) ∧
    ((get_admin_password c5Transport 2).2.2 = 2 - 1 → False) := by
  constructor
  · decide
  · decide

/-- Claim C5 amended: for a transport returning blank bodies on the
first N-1 attempts and a non-blank body on the Nth, N ≤ retry count,
`get_admin_password` performs exactly N fetch attempts with no sleep
between them (the code sleeps only after attempts that raise) and
returns the Nth body stripped of surrounding whitespace; when all
retry-count attempts yield blank bodies it returns a falsy value
(Python `None` for a zero retry count, the empty string otherwise)
after exactly retry-count attempts, again without sleeping. -/
theorem gportal_c5_retry_amended (transport : Nat → FetchResult) (rc : Nat) :
    (∀ (N : Nat) (b : String), 1 ≤ N → N ≤ rc →
      (∀ i, i < N - 1 → ∃ e, transport i = FetchResult.ok e ∧ pyStrip e = "") →
      transport (N - 1) = FetchResult.ok b → pyStrip b ≠ "" →
      get_admin_password transport rc =
        (PwOutcome.returned (some (pyStrip b)), N, 0)) ∧
    ((∀ i, i < rc → ∃ e, transport i = FetchResult.ok e ∧ pyStrip e = "") →
      ∃ p, get_admin_password transport rc = (PwOutcome.returned p, rc, 0) ∧
        (p = none ∨ p = some "")) := by
  constructor
  · intro N b hN1 hN2 hempty hNth hb
    unfold get_admin_password
    have run := pwLoop_empty_run transport (N - 1) rc 0 0 0 none (by omega)
      (fun j hj => by simpa using hempty j hj)
    rw [run]
    obtain ⟨f, hf⟩ : ∃ f, rc - (N - 1) = f + 1 := ⟨rc - N, by omega⟩
    rw [hf]
    have hidx : 0 + (N - 1) = N - 1 := by omega
    rw [hidx]
    simp only [pwLoop, hNth]
    rw [if_neg hb]
    have hN : N - 1 + 1 = N := by omega
    rw [hN]
  · intro hall
    unfold get_admin_password
    have run := pwLoop_empty_run transport rc rc 0 0 0 none (Nat.le_refl rc)
      (fun j hj => by simpa using hall j hj)
    rw [run, Nat.sub_self]
    refine ⟨if rc = 0 then none else some "", ?_, ?_⟩
    · simp [pwLoop]
    · by_cases hrc : rc = 0
      · exact Or.inl (by simp [hrc])
      · exact Or.inr (by simp [hrc])

/-- Closed instance of the amended claim C5: `c5Transport` with retry
count 2 yields the stripped second body after exactly two attempts and
no sleeps. -/
theorem gportal_c5_retry_amended_witness :
    get_admin_password c5Transport 2 = (PwOutcome.returned (some (pyStrip " pw ")), 2, 0) :=
  (gportal_c5_retry_amended c5Transport 2).1 2 " pw " (by decide) (by decide)
    (fun i hi => ⟨"  ", by
      have h0 : i = 0 := by omega
      subst h0
      exact ⟨rfl, by decide⟩⟩)
    (by decide) (by decide)

/-- A transport that always fails with a `RequestException` carrying
no attached response object (the shape of a connection error). -/
def c6Transport (_ : Nat) : FetchResult := FetchResult.reqError false

/-- Claim C6 evaluated at the failing input: a `RequestException`
without an attached response on the very first attempt makes
`get_admin_password` raise (the handler's
`ex.response.status_code` dereferences `None`), after one fetch
attempt and zero sleeps, instead of retrying up to the configured
count and degrading to `None` as the claim states. -/
theorem gportal_c6_reqerror_propagates :
    get_admin_password c6Transport 3 = (PwOutcome.raised, 1, 0) := by decide

/-- Claim C7: `load` never raises (it is a total function of the fetch
outcome): when the base URL is unconfigured it returns false with zero
fetch attempts; when the fetch-or-parse raises it returns false after
the single attempt; and it returns true exactly when the base URL is
configured and the metadata fetch completes without raising. -/
theorem gportal_c7_load_never_raises (c : Bool) (r : MetaFetchResult) :
    (c = false → load c r = (false, 0)) ∧
    (c = true → r = MetaFetchResult.raises → load c r = (false, 1)) ∧
    (∀ doc, c = true → r = MetaFetchResult.value doc → load c r = (true, 1)) ∧
    ((load c r).1 = true ↔ (c = true ∧ r ≠ MetaFetchResult.raises)) := by
  cases c <;> cases r <;> simp [load]

/-- Closed instance of claim C7 at concrete inputs. -/
theorem gportal_c7_load_never_raises_witness :
    load false MetaFetchResult.raises = (false, 0) ∧
    load true MetaFetchResult.raises = (false, 1) ∧
    load true (MetaFetchResult.value none) = (true, 1) :=
  ⟨(gportal_c7_load_never_raises false MetaFetchResult.raises).1 rfl,
   (gportal_c7_load_never_raises true MetaFetchResult.raises).2.1 rfl rfl,
   (gportal_c7_load_never_raises true (MetaFetchResult.value none)).2.2.1 none rfl rfl⟩

/-- The test document with an empty-string `user_data` value. -/
def c8Doc : MetaData := { wDoc with user_data := some "" }

/-- The test document with the repository test's `user_data` value. -/
def udDoc : MetaData := { wDoc with user_data := some "#ps1" }

/-- Counterexample to claim C8 as stated: `user_data` present with the
empty string is a present string value, yet `get_user_data` returns
Python `None` (the code tests truthiness, and the empty string is
falsy), not the UTF-8 encoding of that string. -/
theorem gportal_c8_empty_userdata_counterexample :
    c8Doc.user_data = some "" ∧
    get_user_data c8Doc = none ∧
    get_user_data c8Doc ≠ some (pyEncode "") := by
  refine ⟨rfl, by decide, by decide⟩

/-- Claim C8 amended: `get_user_data` returns `None` when `user_data`
is absent or is the empty string, and the UTF-8 encoding of the value
when it is a present non-empty string. -/
theorem gportal_c8_userdata_amended (md : MetaData) :
    (md.user_data = none → get_user_data md = none) ∧
    (md.user_data = some "" → get_user_data md = none) ∧
    (∀ s, md.user_data = some s → s ≠ "" → get_user_data md = some (pyEncode s)) := by
  refine ⟨fun h => by simp [get_user_data, h],
          fun h => by simp [get_user_data, h],
          fun s hs hne => by simp [get_user_data, hs, hne]⟩

/-- Closed instance of the amended claim C8. -/
theorem gportal_c8_userdata_amended_witness :
    get_user_data udDoc = some (pyEncode "#ps1") :=
  (gportal_c8_userdata_amended udDoc).2.2 "#ps1" rfl (by decide)

/-- Claim C9: for every document with non-empty interfaces and a
present dns section on which both derivations succeed, the `link`
field of every parsed Network is the `name` of some parsed Link, so
the combined model never references a nonexistent link. -/
theorem gportal_c9_link_reference (md : MetaData) (d : DnsSection)
    (links : List Link) (nets : List Network)
    (hdns : md.dns = some d) (hne : md.interfaces ≠ [])
    (hl : net_parse_links md = some links)
    (hs : net_parse_subnets md = some nets) :
    ∀ n ∈ nets, ∃ l ∈ links, l.name = n.link := by
  intro n hn
  have hie : md.interfaces.isEmpty = false := by
    cases hI : md.interfaces with
    | nil => exact absurd hI hne
    | cons a l => simp
  simp only [net_parse_links, hie, Bool.false_eq_true, if_false] at hl
  simp only [net_parse_subnets, hie, hdns, Bool.false_eq_true, if_false] at hs
  obtain ⟨t, nics, nic, rest, fam, hmem, hcons, hfam, hin⟩ :=
    subnetsGo_mem md.interfaces nets hs n hn
  obtain ⟨s, hsub, hEq⟩ := famNetworks_mem hin
  obtain ⟨l, hlmem, hname⟩ := linksGo_name_exists md.interfaces 1 links hl (t, nics) hmem
  exact ⟨l, hlmem, by rw [hname, hEq]⟩

/-- Closed instance of claim C9 on the test document. -/
theorem gportal_c9_link_reference_witness :
    ∃ l ∈ [wLink], l.name = wNet.link :=
  gportal_c9_link_reference wDoc wDns [wLink] [wNet] rfl (by decide) (by decide)
    (by decide) wNet (by decide)

/-- Claim C10: when every interface class of the document maps to a
non-empty descriptor sequence whose first descriptor carries a mac,
both link parsing and subnet parsing succeed (no raise); without that
precondition they are partial functions: a missing mac makes link
parsing raise and an empty descriptor list makes subnet parsing
raise. -/
theorem gportal_c10_parse_total (md : MetaData)
    (h : ∀ p ∈ md.interfaces, ∃ nic rest m, p.2 = nic :: rest ∧ nic.mac = some m) :
    ((∃ links, net_parse_links md = some links) ∧
     (∃ nets, net_parse_subnets md = some nets)) ∧
    (net_parse_links badMacDoc = none ∧ net_parse_subnets emptyNicsDoc = none) := by
  constructor
  · constructor
    · by_cases hie : md.interfaces.isEmpty = true
      · exact ⟨[], by simp [net_parse_links, hie]⟩
      · obtain ⟨links, hl⟩ := linksGo_total md.interfaces 1 h
        exact ⟨links, by simp [net_parse_links, hie, hl]⟩
    · by_cases hie : md.interfaces.isEmpty = true
      · exact ⟨[], by simp [net_parse_subnets, hie]⟩
      · cases hd : md.dns with
        | none => exact ⟨[], by simp [net_parse_subnets, hie, hd]⟩
        | some d =>
          obtain ⟨nets, hnets⟩ := subnetsGo_total (d.nameservers.getD []) md.routes
            md.interfaces
            (fun p hp => by
              obtain ⟨nic, rest, m, hcons, _⟩ := h p hp
              simp [hcons])
          exact ⟨nets, by simp [net_parse_subnets, hie, hd, hnets]⟩
  · exact ⟨by decide, by decide⟩

/-- Closed instance of claim C10 on the test document. -/
theorem gportal_c10_parse_total_witness :
    ((∃ links, net_parse_links wDoc = some links) ∧
     (∃ nets, net_parse_subnets wDoc = some nets)) ∧
    (net_parse_links badMacDoc = none ∧ net_parse_subnets emptyNicsDoc = none) :=
  gportal_c10_parse_total wDoc (fun p hp => by
    simp only [wDoc, List.mem_singleton] at hp
    subst hp
    exact ⟨wNic, [], "40:9a:4c:8d:96:77", rfl, rfl⟩)

/-- Closed instance of claim C1 on the test document: its single
network is the public-class ipv4 network with the default route first
and the document route second. -/
theorem gportal_c1_public_routes_witness :
    ∃ t nics nic rest sub fam,
      (t, nics) ∈ wDoc.interfaces ∧ nics = nic :: rest ∧
      (fam = "ipv4" ∨ fam = "ipv6") ∧
      (if fam = "ipv4" then nic.ipv4 else nic.ipv6) = some sub ∧
      wNet.link = "Network " ++ t ∧
      (t = "public" →
        wNet.routes =
          { network_cidr := some (if fam = "ipv4" then "0.0.0.0/0" else "::/0")
            gateway := sub.gateway } :: wDoc.routes.map routeOfDesc ∧
        wNet.dns_nameservers = wDns.nameservers.getD []) ∧
      (t ≠ "public" →
        wNet.routes = wDoc.routes.map routeOfDesc ∧ wNet.dns_nameservers = []) :=
  gportal_c1_public_routes wDoc wDns [wNet] rfl (by decide) (by decide) wNet (by decide)

/-- Closed instance of claim C2 at position 0 of the test document. -/
theorem gportal_c2_parse_links_witness :
    ∃ nic rest m, [wNic] = nic :: rest ∧ nic.mac = some m ∧
      [wLink].get? 0 = some
        { id := "interface" ++ toString (0 + 1)
          name := "Network " ++ "public"
          type := LINK_TYPE_PHYSICAL
          enabled := true
          mac_address := pyUpper m
          mtu := nic.mtu.getD 1500
          bond := none
          vlan_link := none
          vlan_id := none } :=
  (gportal_c2_parse_links wDoc [wLink] (by decide)).2 0 "public" [wNic] (by decide)

/-- Closed instance of claim C3: no dns means no subnets even with
populated interfaces, and no interfaces means no subnets even with
dns present. -/
theorem gportal_c3_subnets_require_both_witness :
    net_parse_subnets noDnsDoc = some [] ∧ net_parse_subnets noIfaceDoc = some [] :=
  ⟨(gportal_c3_subnets_require_both noDnsDoc).1 rfl,
   (gportal_c3_subnets_require_both noIfaceDoc).2 rfl⟩

/-- Closed instance of claim C4 on the empty-interfaces document and
on the test document. -/
theorem gportal_c4_network_details_witness :
    get_network_details_v2 noIfaceDoc = some none ∧
    get_network_details_v2 wDoc =
      some (some { links := [wLink], networks := [wNet],
                   services := net_parse_services wDoc }) :=
  ⟨(gportal_c4_network_details noIfaceDoc).1 rfl,
   (gportal_c4_network_details wDoc).2.2 [wLink] [wNet] (by decide) (by decide) (by decide)⟩
